import Mathlib

/-!
Formal model of the Open WebUI knowledge-search tool
(`knowledge_search_tool.py`).

The module has two request handlers, `search_knowledge` and
`list_available_knowledge_bases`, sharing a configuration object
(`Valves`).  Both delegate all real work to external collaborators
(retrieval, user resolution, knowledge-base registry, progress sink);
we model each collaborator as an oracle whose outcome is quantified in
the theorems.  A Python exception is modelled as `Except.error msg`
where `msg` is `str(e)`; an exception that escapes the handler is an
`Except.error` in the handler's `result` field.

Python floats (distances, the relevance threshold) are opaque to this
module: they are only stored and passed through, never computed with
(the only operation, `round(d, 3)`, is modelled by an abstract function
`round3`).  We therefore embed them as a type parameter `D`.  Likewise
the resolved user record is opaque, embedded as a type parameter `U`.

The progress sink is modelled as `Option (Nat → Option String)`:
`none` means no sink was supplied; `some f` means a sink is present and
its call number `k` (0-based, counted per handler invocation) raises an
exception with message `f k` when `f k` is `some`, and succeeds,
recording the event, when `f k` is `none`.

Python string primitives used by the source (`str.split(",")`,
`str.strip()`, `str.join`) are transcribed over `List Char`; `strip`
uses the ASCII whitespace set (the source never feeds it non-ASCII
whitespace at the positions that matter: the stripped context always
ends in `>` followed by the literal `"\n\n"` separator).
-/

namespace KnowledgeTool

/-- The single-quote character as a one-character string; the source
embeds literal single quotes in two of its messages. -/
def sq : String := String.mk ['\x27']

/-- ASCII whitespace, the character class stripped by Python `str.strip()`. -/
def isPySpace (c : Char) : Bool :=
  c = ' ' || c = '\t' || c = '\n' || c = '\r' || c = '\x0b' || c = '\x0c'

/-- Python `str.strip()` on a character list: drop leading and trailing
whitespace. -/
def pyStripL (l : List Char) : List Char :=
  ((l.dropWhile isPySpace).reverse.dropWhile isPySpace).reverse

/-- Python `str.strip()`. -/
def pyStrip (s : String) : String :=
  String.mk (pyStripL s.data)

/-- Python `str.split(",")`: split at every comma, never collapsing and
never dropping fields (so the result is never empty). -/
def pySplitCommaAux : List Char → List Char → List (List Char)
  | [], acc => [acc.reverse]
  | c :: cs, acc =>
    if c = ',' then acc.reverse :: pySplitCommaAux cs []
    else pySplitCommaAux cs (c :: acc)

/-- Python `s.split(",")`. -/
def pySplitComma (s : String) : List String :=
  (pySplitCommaAux s.data []).map String.mk

/-- Python `sep.join(xs)`. -/
def joinSep (sep : String) : List String → String
  | [] => ""
  | [x] => x
  | x :: y :: ys => x ++ sep ++ joinSep sep (y :: ys)

/-- The tool's configuration (`Tools.Valves`): a comma-separated string
of default knowledge-base ids, the result cap `top_k`, and the (unused)
`relevance_threshold`.  The threshold is a float in the source, opaque
here (`D`). -/
structure Valves (D : Type) where
  default_knowledge_bases : String
  top_k : Int
  relevance_threshold : D

/-- One retrieved document's metadata mapping: the handler reads only
the optional `source` and `file_id` keys. -/
structure Metadata where
  source : Option String
  file_id : Option String
deriving DecidableEq

/-- The structure returned by `query_collection`: per key, an optional
list of per-query lists.  A missing key models both an absent dict key
and a falsy value where the source only tests truthiness. -/
structure QueryResult (D : Type) where
  documents : Option (List (List String))
  metadatas : Option (List (List Metadata))
  distances : Option (List (List D))

/-- The metadata record embedded in an emitted citation event. -/
structure CitationMeta (D : Type) where
  source : String
  file_id : String
  relevance_score : D
deriving DecidableEq

/-- The source descriptor embedded in an emitted citation event. -/
structure SourceDesc where
  name : String
  url : String
deriving DecidableEq

/-- An event sent to the progress sink: either a `status` payload
(description, done flag) or a `citation` payload. -/
inductive Event (D : Type) where
  | status (description : String) (done : Bool)
  | citation (document : List String) (metadata : List (CitationMeta D)) (source : SourceDesc)
deriving DecidableEq

/-- Observable outcome of one `search_knowledge` invocation: the
returned string (`Except.ok`) or the escaped exception
(`Except.error`), together with the events delivered to the sink. -/
structure SearchOut (D : Type) where
  result : Except String String
  events : List (Event D)

/-- The optional progress sink together with its raising behavior per
call index. -/
abbrev Emitter : Type := Option (Nat → Option String)

/-- One `await __event_emitter__(...)` site guarded by
`if __event_emitter__:`.  State is (delivered events, call counter);
the second component of the result is the raised message, if any. -/
def emit {D : Type} (em : Emitter) (st : List (Event D) × Nat) (e : Event D) :
    (List (Event D) × Nat) × Option String :=
  match em with
  | none => (st, none)
  | some f =>
    match f st.2 with
    | some msg => ((st.1, st.2 + 1), some msg)
    | none => ((st.1 ++ [e], st.2 + 1), none)

/-- A well-behaved sink configuration: absent, or never raising. -/
def GoodEm (em : Emitter) : Prop := ∀ f, em = some f → ∀ k, f k = none

/-- Events actually delivered when the nominal event sequence is `es`:
all of them if a sink is present, none otherwise. -/
def emitsOf {D : Type} (em : Emitter) (es : List (Event D)) : List (Event D) :=
  match em with
  | none => []
  | some _ => es

/-- Number of sink calls made by one emission site. -/
def tick (em : Emitter) : Nat :=
  match em with
  | none => 0
  | some _ => 1

/-- `if __user__ and __user__.get("id"):` — the caller-identity dict is
`none` (absent/falsy) or `some uid` where `uid` is its `"id"` value;
the guard passes only for a non-empty id string. -/
def hasUserId : Option (Option String) → Option String
  | some (some s) => if s = "" then none else some s
  | some none => none
  | none => none

/-- `[kb.strip() for kb in s.split(",")]`. -/
def resolveSelector (s : String) : List String :=
  (pySplitComma s).map pyStrip

/-- Lines 79–84: pick the selector if truthy, else the configured
defaults if truthy, else fail (`none`) with the fixed message. -/
def resolveKbIds (sel : Option String) (defaults : String) : Option (List String) :=
  match sel with
  | some s =>
    if s = "" then
      (if defaults = "" then none else some (resolveSelector defaults))
    else some (resolveSelector s)
  | none =>
    if defaults = "" then none else some (resolveSelector defaults)

/-- Lines 87–89: resolve the caller identity through
`Users.get_user_by_id` (oracle `g`, which may raise) when the guard
passes; otherwise the user object stays `None`. -/
def resolveUser {U : Type} (g : String → Except String (Option U))
    (user : Option (Option String)) : Except String (Option U) :=
  match hasUserId user with
  | some uid => g uid
  | none => Except.ok none

/-- `result.get(key, [[]])[0]`: a missing key yields the default's
first element `[]`; a present empty list raises `IndexError`; a present
non-empty list yields its first element. -/
def get0 {α : Type} : Option (List (List α)) → Except String (List α)
  | none => Except.ok []
  | some [] => Except.error "list index out of range"
  | some (x :: _) => Except.ok x

/-- Python `zip` of three lists: truncates to the shortest. -/
def zip3 {α β γ : Type} : List α → List β → List γ → List (α × β × γ)
  | a :: as, b :: bs, c :: cs => (a, b, c) :: zip3 as bs cs
  | _, _, _ => []

/-- Line 108: `not result or not result.get("documents") or not
result["documents"][0]` — the condition selecting the empty-result
branch. -/
def emptyResult {D : Type} : Option (QueryResult D) → Bool
  | none => true
  | some r =>
    match r.documents with
    | none => true
    | some [] => true
    | some (d0 :: _) => d0.isEmpty

/-- `metadata.get("source", f"Source {citation_id}")`. -/
def sourceNameOf (md : Metadata) (cid : Nat) : String :=
  md.source.getD ("Source " ++ toString cid)

/-- One rendered source block without its trailing separator. -/
def taggedBlock (cid : Nat) (sname doc : String) : String :=
  "<source id=\"" ++ (toString cid ++ ("\" name=\"" ++ (sname ++ ("\">" ++ (doc ++ "</source>")))))

/-- Line 149: the appended block, separator included. -/
def renderBlock (cid : Nat) (sname doc : String) : String :=
  taggedBlock cid sname doc ++ "\n\n"

/-- Lines 132–146: the citation event emitted for one document. -/
def citEvent {D : Type} (round3 : D → D) (cid : Nat) (doc : String) (md : Metadata)
    (dist : D) : Event D :=
  Event.citation [doc]
    [⟨sourceNameOf md cid, md.file_id.getD "", round3 dist⟩]
    ⟨sourceNameOf md cid, "#file-" ++ md.file_id.getD ""⟩

/-- The initial status event (lines 68–75, emitted before the `try`). -/
def searchingEvent {D : Type} : Event D := Event.status "Searching knowledge bases..." false

/-- Line 84: the terminal message when no knowledge base is resolvable. -/
def noKbMsg : String :=
  "Error: No knowledge bases specified. Please provide knowledge_base_ids parameter or configure default knowledge bases in tool settings."

/-- Line 117: the empty-result message, quoting the query. -/
def noInfoMsg (query : String) : String :=
  "No relevant information found in the knowledge bases for query: " ++ sq ++ query ++ sq

/-- Line 155: the completion status text. -/
def foundMsg (n : Nat) : String := "Found " ++ toString n ++ " relevant documents"

/-- Line 170: the caught-exception result string. -/
def errMsg (m : String) : String := "Error searching knowledge bases: " ++ m

/-- Lines 161–167: the returned template wrapping the stripped context. -/
def finalTemplate (ctx : String) : String :=
  "Here is the relevant information from the knowledge bases:\n\n<context>\n" ++ pyStrip ctx ++
    "\n</context>\n\nUse the information above to answer the user" ++ sq ++
    "s question. When referencing specific information, include inline citations using [1], [2], etc., corresponding to the source IDs in the <source> tags. Do not include the XML tags in your response."

/-- Lines 126–149: the per-document loop.  `i` is the `enumerate`
index; the accumulated `ctx` is `formatted_context`.  A raising sink
aborts the loop with the exception. -/
def citeLoop {D : Type} (round3 : D → D) (em : Emitter) :
    List (String × Metadata × D) → Nat → (List (Event D) × Nat) → String →
    ((List (Event D) × Nat) × Except String String)
  | [], _, st, ctx => (st, Except.ok ctx)
  | (doc, md, dist) :: rest, i, st, ctx =>
    match emit em st (citEvent round3 (i + 1) doc md dist) with
    | (st2, some msg) => (st2, Except.error msg)
    | (st2, none) =>
        citeLoop round3 em rest (i + 1) st2
          (ctx ++ renderBlock (i + 1) (sourceNameOf md (i + 1)) doc)

/-- Lines 108–117: the empty-result branch (status emission plus
message). -/
def noResultsStep {D : Type} (em : Emitter) (query : String) (st : List (Event D) × Nat) :
    (List (Event D) × Nat) × Except String String :=
  match emit em st (Event.status "No relevant knowledge found" true) with
  | (st2, some msg) => (st2, Except.error msg)
  | (st2, none) => (st2, Except.ok (noInfoMsg query))

/-- The body of the `try` block (lines 77–167).  `Except.error m` is an
exception with message `m` reaching the `except` handler; `Except.ok s`
is a normal `return s`. -/
def searchTry {D U : Type} (round3 : D → D) (valves : Valves D)
    (getUserById : String → Except String (Option U))
    (queryCollection : List String → String → Int → Option U → Except String (Option (QueryResult D)))
    (query : String) (kbSel : Option String) (em : Emitter) (user : Option (Option String))
    (st : List (Event D) × Nat) :
    (List (Event D) × Nat) × Except String String :=
  match resolveKbIds kbSel valves.default_knowledge_bases with
  | none => (st, Except.ok noKbMsg)
  | some kb_ids =>
    match resolveUser getUserById user with
    | Except.error m => (st, Except.error m)
    | Except.ok user_obj =>
      match queryCollection kb_ids query valves.top_k user_obj with
      | Except.error m => (st, Except.error m)
      | Except.ok resOpt =>
        match resOpt with
        | none => noResultsStep em query st
        | some r =>
          match r.documents with
          | none => noResultsStep em query st
          | some [] => noResultsStep em query st
          | some ([] :: _) => noResultsStep em query st
          | some ((d :: dtl) :: _) =>
            match get0 r.metadatas with
            | Except.error m => (st, Except.error m)
            | Except.ok mds =>
              match get0 r.distances with
              | Except.error m => (st, Except.error m)
              | Except.ok dsts =>
                match citeLoop round3 em (zip3 (d :: dtl) mds dsts) 0 st "" with
                | (st2, Except.error m) => (st2, Except.error m)
                | (st2, Except.ok ctx) =>
                  match emit em st2 (Event.status (foundMsg (d :: dtl).length) true) with
                  | (st3, some msg) => (st3, Except.error msg)
                  | (st3, none) => (st3, Except.ok (finalTemplate ctx))

/-- `Tools.search_knowledge` (lines 47–179): the pre-`try` status
emission, then the `try` body, then the `except` handler which converts
the exception to a string and emits a final failure status — an
emission that may itself raise and escape. -/
def search_knowledge {D U : Type} (round3 : D → D) (valves : Valves D)
    (getUserById : String → Except String (Option U))
    (queryCollection : List String → String → Int → Option U → Except String (Option (QueryResult D)))
    (query : String) (knowledge_base_ids : Option String)
    (em : Emitter) (user : Option (Option String)) : SearchOut D :=
  match emit em (([], 0) : List (Event D) × Nat) searchingEvent with
  | (st1, some msg) => ⟨Except.error msg, st1.1⟩
  | (st1, none) =>
    match searchTry round3 valves getUserById queryCollection query knowledge_base_ids em user st1 with
    | (st2, Except.ok s) => ⟨Except.ok s, st2.1⟩
    | (st2, Except.error m) =>
      match emit em st2 (Event.status (errMsg m) true) with
      | (st3, some msg2) => ⟨Except.error msg2, st3.1⟩
      | (st3, none) => ⟨Except.ok (errMsg m), st3.1⟩

/-- The `data` payload of a knowledge-base row: the handler reads only
the optional `file_ids` list. -/
structure KbData where
  file_ids : Option (List String)
deriving DecidableEq

/-- One knowledge-base descriptor as returned by the registry. -/
structure KnowledgeBase where
  id : String
  name : String
  description : Option String
  data : Option KbData
deriving DecidableEq

/-- `kb.description or 'No description'` (Python `or`: `None` and the
empty string are both falsy). -/
def pyOrDesc : Option String → String
  | none => "No description"
  | some s => if s = "" then "No description" else s

/-- `len((kb.data or {}).get("file_ids", []))`. -/
def fileCount (kb : KnowledgeBase) : Nat :=
  ((kb.data.getD ⟨none⟩).file_ids.getD []).length

/-- Lines 213–217: one rendered registry entry. -/
def renderKb (kb : KnowledgeBase) : String :=
  "- **" ++ kb.name ++ "** (ID: `" ++ kb.id ++ "`)\n  Description: " ++
    pyOrDesc kb.description ++ "\n  Files: " ++ toString (fileCount kb)

/-- `Tools.list_available_knowledge_bases` (lines 181–222).  The
registry oracle receives the resolved caller id (`some uid` selects the
permission-filtered query, `none` the unrestricted one) and may raise.
The sink parameter exists in the source signature but is never used, so
the handler emits nothing and nothing it does can escape: every branch
is an `Except.ok`. -/
def list_available_knowledge_bases
    (registry : Option String → Except String (List KnowledgeBase))
    (_em : Emitter) (user : Option (Option String)) : Except String String :=
  match registry (hasUserId user) with
  | Except.error m => Except.ok ("Error listing knowledge bases: " ++ m)
  | Except.ok kbs =>
    if kbs.isEmpty then Except.ok "No knowledge bases are currently available."
    else Except.ok (joinSep "\n" ("Available knowledge bases:\n" :: kbs.map renderKb))

/-- The citation events the loop emits for a triple list starting at
`enumerate` index `i`. -/
def citeEvents {D : Type} (round3 : D → D) :
    List (String × Metadata × D) → Nat → List (Event D)
  | [], _ => []
  | (doc, md, dist) :: rest, i =>
    citEvent round3 (i + 1) doc md dist :: citeEvents round3 rest (i + 1)

/-- The `formatted_context` string the loop accumulates. -/
def ctxBlocks {D : Type} : List (String × Metadata × D) → Nat → String
  | [], _ => ""
  | (doc, md, _) :: rest, i =>
    renderBlock (i + 1) (sourceNameOf md (i + 1)) doc ++ ctxBlocks rest (i + 1)

/-- The same blocks without their trailing separators. -/
def coreBlocks {D : Type} : List (String × Metadata × D) → Nat → List String
  | [], _ => []
  | (doc, md, _) :: rest, i =>
    taggedBlock (i + 1) (sourceNameOf md (i + 1)) doc :: coreBlocks rest (i + 1)

/-! Helper lemmas. -/

theorem head?_eq_cons {α : Type} {l : List α} {a : α} (h : l.head? = some a) :
    ∃ t, l = a :: t := by
  cases l with
  | nil => cases h
  | cons x t => cases h; exact ⟨t, rfl⟩

theorem emitsOf_nil {D : Type} (em : Emitter) : emitsOf em ([] : List (Event D)) = [] := by
  cases em <;> rfl

theorem emit_good {D : Type} {em : Emitter} (hg : GoodEm em) (st : List (Event D) × Nat)
    (e : Event D) :
    emit em st e = ((st.1 ++ emitsOf em [e], st.2 + tick em), none) := by
  cases em with
  | none => simp [emit, emitsOf, tick]
  | some f => simp [emit, emitsOf, tick, hg f rfl st.2]

theorem citeLoop_good {D : Type} {em : Emitter} (round3 : D → D) (hg : GoodEm em) :
    ∀ (ts : List (String × Metadata × D)) (i : Nat) (log : List (Event D)) (k : Nat)
      (ctx : String),
      citeLoop round3 em ts i (log, k) ctx =
        ((log ++ emitsOf em (citeEvents round3 ts i), k + tick em * ts.length),
          Except.ok (ctx ++ ctxBlocks ts i))
  | [], i, log, k, ctx => by
      simp [citeLoop, citeEvents, ctxBlocks, emitsOf_nil, String.append_empty]
  | (doc, md, dist) :: rest, i, log, k, ctx => by
      rw [show citeLoop round3 em ((doc, md, dist) :: rest) i (log, k) ctx =
            (match emit em (log, k) (citEvent round3 (i + 1) doc md dist) with
             | (st2, some msg) => (st2, Except.error msg)
             | (st2, none) =>
                 citeLoop round3 em rest (i + 1) st2
                   (ctx ++ renderBlock (i + 1) (sourceNameOf md (i + 1)) doc)) from rfl]
      rw [emit_good hg]
      dsimp only
      rw [citeLoop_good round3 hg rest (i + 1) (log ++ emitsOf em [citEvent round3 (i + 1) doc md dist]) (k + tick em) (ctx ++ renderBlock (i + 1) (sourceNameOf md (i + 1)) doc)]
      refine Prod.ext (Prod.ext ?_ ?_) (congrArg Except.ok ?_)
      · cases em <;> simp [emitsOf, citeEvents]
      · dsimp only
        rw [List.length_cons, Nat.mul_succ]
        omega
      · rw [String.append_assoc]
        rfl

theorem citeLoop_good_ctx {D : Type} {em : Emitter} (round3 : D → D) (hg : GoodEm em)
    (ts : List (String × Metadata × D)) (i : Nat) (log : List (Event D)) (k : Nat)
    (ctx : String) :
    (citeLoop round3 em ts i (log, k) ctx).2 = Except.ok (ctx ++ ctxBlocks ts i) := by
  rw [citeLoop_good round3 hg]

theorem zip3_length {α β γ : Type} :
    ∀ (as : List α) (bs : List β) (cs : List γ),
      (zip3 as bs cs).length = Nat.min as.length (Nat.min bs.length cs.length)
  | [], bs, cs => by simp [zip3]
  | a :: as, [], cs => by simp [zip3]
  | a :: as, b :: bs, [] => by simp [zip3]
  | a :: as, b :: bs, c :: cs => by
      simp [zip3, zip3_length as bs cs, Nat.succ_min_succ]

theorem zip3_getElem? {α β γ : Type} :
    ∀ (as : List α) (bs : List β) (cs : List γ) (i : Nat) (a : α) (b : β) (c : γ),
      as[i]? = some a → bs[i]? = some b → cs[i]? = some c →
      (zip3 as bs cs)[i]? = some (a, b, c)
  | [], _, _, i, _, _, _, ha, _, _ => by simp at ha
  | _ :: _, [], _, i, _, _, _, _, hb, _ => by simp at hb
  | _ :: _, _ :: _, [], i, _, _, _, _, _, hc => by simp at hc
  | a0 :: as, b0 :: bs, c0 :: cs, 0, a, b, c, ha, hb, hc => by
      simp [zip3] at ha hb hc ⊢
      exact ⟨ha, hb, hc⟩
  | a0 :: as, b0 :: bs, c0 :: cs, i + 1, a, b, c, ha, hb, hc => by
      simp [zip3] at ha hb hc ⊢
      exact zip3_getElem? as bs cs i a b c ha hb hc

theorem citeEvents_length {D : Type} (round3 : D → D) :
    ∀ (ts : List (String × Metadata × D)) (i : Nat),
      (citeEvents round3 ts i).length = ts.length
  | [], _ => rfl
  | (doc, md, dist) :: rest, i => by
      simp [citeEvents, citeEvents_length round3 rest (i + 1)]

theorem coreBlocks_length {D : Type} :
    ∀ (ts : List (String × Metadata × D)) (i : Nat),
      (coreBlocks ts i).length = ts.length
  | [], _ => rfl
  | (doc, md, dist) :: rest, i => by
      simp [coreBlocks, coreBlocks_length rest (i + 1)]

theorem citeEvents_getElem? {D : Type} (round3 : D → D) :
    ∀ (ts : List (String × Metadata × D)) (j i : Nat) (doc : String) (md : Metadata) (dist : D),
      ts[i]? = some (doc, md, dist) →
      (citeEvents round3 ts j)[i]? = some (citEvent round3 (j + i + 1) doc md dist)
  | [], _, i, _, _, _, h => by simp at h
  | (d0, m0, s0) :: rest, j, 0, doc, md, dist, h => by
      simp at h
      obtain ⟨h1, h2, h3⟩ := h
      subst h1; subst h2; subst h3
      simp [citeEvents]
  | (d0, m0, s0) :: rest, j, i + 1, doc, md, dist, h => by
      simp at h
      have := citeEvents_getElem? round3 rest (j + 1) i doc md dist (by simpa using h)
      simp [citeEvents]
      rw [this]
      have harith : j + 1 + i + 1 = j + (i + 1) + 1 := by omega
      rw [harith]

theorem coreBlocks_getElem? {D : Type} :
    ∀ (ts : List (String × Metadata × D)) (j i : Nat) (doc : String) (md : Metadata) (dist : D),
      ts[i]? = some (doc, md, dist) →
      (coreBlocks ts j)[i]? = some (taggedBlock (j + i + 1) (sourceNameOf md (j + i + 1)) doc)
  | [], _, i, _, _, _, h => by simp at h
  | (d0, m0, s0) :: rest, j, 0, doc, md, dist, h => by
      simp at h
      obtain ⟨h1, h2, h3⟩ := h
      subst h1; subst h2; subst h3
      simp [coreBlocks]
  | (d0, m0, s0) :: rest, j, i + 1, doc, md, dist, h => by
      simp at h
      have := coreBlocks_getElem? rest (j + 1) i doc md dist (by simpa using h)
      simp [coreBlocks]
      rw [this]
      have harith : j + 1 + i + 1 = j + (i + 1) + 1 := by omega
      rw [harith]

theorem pySplitCommaAux_ne_nil : ∀ (l acc : List Char), pySplitCommaAux l acc ≠ []
  | [], acc => by simp [pySplitCommaAux]
  | c :: cs, acc => by
      by_cases h : c = ','
      · simp [pySplitCommaAux, h]
      · simpa [pySplitCommaAux, h] using pySplitCommaAux_ne_nil cs (c :: acc)

theorem resolveSelector_ne_nil (s : String) : resolveSelector s ≠ [] := by
  unfold resolveSelector pySplitComma
  intro h
  rw [List.map_eq_nil_iff, List.map_eq_nil_iff] at h
  exact pySplitCommaAux_ne_nil s.data [] h

theorem taggedBlock_head (cid : Nat) (sname doc : String) :
    (taggedBlock cid sname doc).data.head? = some '<' := by
  unfold taggedBlock
  rw [String.data_append,
    show ("<source id=\"" : String).data = '<' :: ("source id=\"" : String).data from rfl]
  rfl

theorem taggedBlock_last (cid : Nat) (sname doc : String) :
    (taggedBlock cid sname doc).data.getLast? = some '>' := by
  unfold taggedBlock
  simp only [String.data_append, ← List.append_assoc]
  rw [List.getLast?_append_of_ne_nil _ (show ("</source>" : String).data ≠ [] by decide)]
  rfl

theorem joinSep_coreBlocks_head {D : Type} (ts : List (String × Metadata × D)) (i : Nat)
    (h : ts ≠ []) :
    (joinSep "\n\n" (coreBlocks ts i)).data.head? = some '<' := by
  match ts with
  | [] => exact absurd rfl h
  | [(doc, md, dist)] =>
      simpa [coreBlocks, joinSep] using taggedBlock_head (i + 1) (sourceNameOf md (i + 1)) doc
  | (doc, md, dist) :: (d2, m2, s2) :: rest =>
      obtain ⟨t1, ht1⟩ := head?_eq_cons
        (taggedBlock_head (i + 1) (sourceNameOf md (i + 1)) doc)
      simp only [coreBlocks, joinSep, String.data_append, ht1]
      rfl

theorem joinSep_coreBlocks_last {D : Type} :
    ∀ (ts : List (String × Metadata × D)) (i : Nat), ts ≠ [] →
      (joinSep "\n\n" (coreBlocks ts i)).data.getLast? = some '>'
  | [], _, h => absurd rfl h
  | [(doc, md, dist)], i, _ => by
      simpa [coreBlocks, joinSep] using taggedBlock_last (i + 1) (sourceNameOf md (i + 1)) doc
  | (doc, md, dist) :: (d2, m2, s2) :: rest, i, _ => by
      have hJ := joinSep_coreBlocks_last ((d2, m2, s2) :: rest) (i + 1) (List.cons_ne_nil _ _)
      have hH := joinSep_coreBlocks_head ((d2, m2, s2) :: rest) (i + 1) (List.cons_ne_nil _ _)
      obtain ⟨tJ, htJ⟩ := head?_eq_cons hH
      simp only [coreBlocks, joinSep] at hJ htJ ⊢
      rw [String.data_append,
        List.getLast?_append_of_ne_nil _ (by rw [htJ]; exact List.cons_ne_nil _ _)]
      exact hJ

theorem ctxBlocks_join {D : Type} :
    ∀ (ts : List (String × Metadata × D)) (i : Nat), ts ≠ [] →
      ctxBlocks ts i = joinSep "\n\n" (coreBlocks ts i) ++ "\n\n"
  | [], _, h => absurd rfl h
  | [(doc, md, dist)], i, _ => by
      simp [ctxBlocks, coreBlocks, joinSep, renderBlock]
  | (doc, md, dist) :: (d2, m2, s2) :: rest, i, _ => by
      have ih := ctxBlocks_join ((d2, m2, s2) :: rest) (i + 1) (List.cons_ne_nil _ _)
      simp only [ctxBlocks, coreBlocks, joinSep] at ih ⊢
      rw [ih, renderBlock]
      simp [String.append_assoc]

theorem pyStripL_append_nn (l : List Char) (c1 c2 : Char)
    (h1 : l.head? = some c1) (hc1 : isPySpace c1 = false)
    (h2 : l.getLast? = some c2) (hc2 : isPySpace c2 = false) :
    pyStripL (l ++ ['\n', '\n']) = l := by
  obtain ⟨t1, hl⟩ := head?_eq_cons h1
  obtain ⟨t2, hr⟩ := head?_eq_cons ((List.head?_reverse l).trans h2)
  unfold pyStripL
  have hfw : List.dropWhile isPySpace (l ++ ['\n', '\n']) = l ++ ['\n', '\n'] := by
    rw [hl]
    simp [List.dropWhile_cons, hc1]
  rw [hfw, List.reverse_append,
    show (['\n', '\n'] : List Char).reverse = ['\n', '\n'] from rfl]
  have hn : isPySpace '\n' = true := by decide
  have hbw : List.dropWhile isPySpace (['\n', '\n'] ++ l.reverse) = l.reverse := by
    rw [hr]
    simp [List.dropWhile_cons, hn, hc2]
  rw [hbw, List.reverse_reverse]

theorem pyStrip_append_nn (X : String) (c1 c2 : Char)
    (h1 : X.data.head? = some c1) (hc1 : isPySpace c1 = false)
    (h2 : X.data.getLast? = some c2) (hc2 : isPySpace c2 = false) :
    pyStrip (X ++ "\n\n") = X := by
  apply String.ext
  show pyStripL (X ++ "\n\n").data = X.data
  rw [String.data_append, show ("\n\n" : String).data = ['\n', '\n'] from rfl]
  exact pyStripL_append_nn X.data c1 c2 h1 hc1 h2 hc2

/-- The `.strip()` applied to the accumulated context just removes the
final blank-line separator, leaving the blocks joined by blank lines. -/
theorem pyStrip_ctxBlocks {D : Type} (ts : List (String × Metadata × D)) (i : Nat)
    (h : ts ≠ []) :
    pyStrip (ctxBlocks ts i) = joinSep "\n\n" (coreBlocks ts i) := by
  rw [ctxBlocks_join ts i h]
  exact pyStrip_append_nn _ '<' '>' (joinSep_coreBlocks_head ts i h) (by decide)
    (joinSep_coreBlocks_last ts i h) (by decide)

/-! Characterizations of one `search_knowledge` invocation on each
control path, for a well-behaved sink. -/

theorem search_run_nokb {D U : Type} (round3 : D → D) (v : Valves D)
    (g : String → Except String (Option U))
    (qc : List String → String → Int → Option U → Except String (Option (QueryResult D)))
    (q : String) (sel : Option String) (em : Emitter) (user : Option (Option String))
    (h1 : resolveKbIds sel v.default_knowledge_bases = none)
    (hg : GoodEm em) :
    search_knowledge round3 v g qc q sel em user =
      ⟨Except.ok noKbMsg, emitsOf em [searchingEvent]⟩ := by
  unfold search_knowledge searchTry
  rw [emit_good hg]
  simp only [h1]
  cases em <;> simp [emitsOf]

theorem search_run_qcerr {D U : Type} (round3 : D → D) (v : Valves D)
    (g : String → Except String (Option U))
    (qc : List String → String → Int → Option U → Except String (Option (QueryResult D)))
    (q : String) (sel : Option String) (em : Emitter) (user : Option (Option String))
    (kbs : List String) (uo : Option U) (m : String)
    (h1 : resolveKbIds sel v.default_knowledge_bases = some kbs)
    (h2 : resolveUser g user = Except.ok uo)
    (hq : qc kbs q v.top_k uo = Except.error m)
    (hg : GoodEm em) :
    search_knowledge round3 v g qc q sel em user =
      ⟨Except.ok (errMsg m),
        emitsOf em [searchingEvent, Event.status (errMsg m) true]⟩ := by
  unfold search_knowledge searchTry
  rw [emit_good hg]
  simp only [h1, h2, hq]
  rw [emit_good hg]
  cases em <;> simp [emitsOf]

theorem search_run_empty {D U : Type} (round3 : D → D) (v : Valves D)
    (g : String → Except String (Option U))
    (qc : List String → String → Int → Option U → Except String (Option (QueryResult D)))
    (q : String) (sel : Option String) (em : Emitter) (user : Option (Option String))
    (kbs : List String) (uo : Option U) (resOpt : Option (QueryResult D))
    (h1 : resolveKbIds sel v.default_knowledge_bases = some kbs)
    (h2 : resolveUser g user = Except.ok uo)
    (h3 : qc kbs q v.top_k uo = Except.ok resOpt)
    (hE : emptyResult resOpt = true)
    (hg : GoodEm em) :
    search_knowledge round3 v g qc q sel em user =
      ⟨Except.ok (noInfoMsg q),
        emitsOf em [searchingEvent, Event.status "No relevant knowledge found" true]⟩ := by
  unfold search_knowledge searchTry
  rw [emit_good hg]
  simp only [h1, h2, h3]
  rcases resOpt with _ | r
  · unfold noResultsStep
    rw [emit_good hg]
    cases em <;> simp [emitsOf]
  · obtain ⟨rdoc, rmet, rdist⟩ := r
    rcases rdoc with _ | dl
    · unfold noResultsStep
      rw [emit_good hg]
      cases em <;> simp [emitsOf]
    · rcases dl with _ | ⟨dfst, drest⟩
      · unfold noResultsStep
        rw [emit_good hg]
        cases em <;> simp [emitsOf]
      · rcases dfst with _ | ⟨c, cs⟩
        · unfold noResultsStep
          rw [emit_good hg]
          cases em <;> simp [emitsOf]
        · exfalso
          simp [emptyResult] at hE

theorem search_run_ok {D U : Type} (round3 : D → D) (v : Valves D)
    (g : String → Except String (Option U))
    (qc : List String → String → Int → Option U → Except String (Option (QueryResult D)))
    (q : String) (sel : Option String) (em : Emitter) (user : Option (Option String))
    (kbs : List String) (uo : Option U) (r : QueryResult D)
    (d0 : String) (dtl : List String) (restD : List (List String))
    (mds : List Metadata) (dsts : List D)
    (h1 : resolveKbIds sel v.default_knowledge_bases = some kbs)
    (h2 : resolveUser g user = Except.ok uo)
    (h3 : qc kbs q v.top_k uo = Except.ok (some r))
    (h4 : r.documents = some ((d0 :: dtl) :: restD))
    (h5 : get0 r.metadatas = Except.ok mds)
    (h6 : get0 r.distances = Except.ok dsts)
    (hg : GoodEm em) :
    search_knowledge round3 v g qc q sel em user =
      ⟨Except.ok (finalTemplate (ctxBlocks (zip3 (d0 :: dtl) mds dsts) 0)),
        emitsOf em (searchingEvent ::
          (citeEvents round3 (zip3 (d0 :: dtl) mds dsts) 0 ++
            [Event.status (foundMsg (d0 :: dtl).length) true]))⟩ := by
  unfold search_knowledge searchTry
  rw [emit_good hg]
  simp only [h1, h2, h3, h4, h5, h6]
  rw [citeLoop_good round3 hg]
  dsimp only
  rw [emit_good hg]
  cases em <;> simp [emitsOf]

/-! Claim theorems. -/

/-- Claim C1, corrected.  With a well-behaved progress sink (absent or
never raising) both handlers always return a plain string: every
failure of retrieval, user resolution or the registry is caught and
converted to a string result, for every oracle behavior.  The claim as
stated — quantifying over the sink's behavior as well — is false: the
initial status emission of `search_knowledge` sits before the `try`
block, so a raising sink escapes (see the counterexample). -/
theorem c1_no_raise_for_good_sink {D U : Type} (round3 : D → D) (v : Valves D)
    (g : String → Except String (Option U))
    (qc : List String → String → Int → Option U → Except String (Option (QueryResult D)))
    (q : String) (sel : Option String) (em : Emitter) (user : Option (Option String))
    (hg : GoodEm em) :
    (∃ s, (search_knowledge round3 v g qc q sel em user).result = Except.ok s) ∧
    (∀ (registry : Option String → Except String (List KnowledgeBase)) (em2 : Emitter)
      (u2 : Option (Option String)),
      ∃ s, list_available_knowledge_bases registry em2 u2 = Except.ok s) := by
  constructor
  · unfold search_knowledge
    rw [emit_good hg]
    dsimp only
    rcases hTry : searchTry round3 v g qc q sel em user
        ([] ++ emitsOf em [searchingEvent], 0 + tick em) with ⟨st2, res⟩
    rcases res with m | s
    · dsimp only
      rw [emit_good hg]
      exact ⟨errMsg m, rfl⟩
    · exact ⟨s, rfl⟩
  · intro registry em2 u2
    unfold list_available_knowledge_bases
    cases hR : registry (hasUserId u2) with
    | error m => exact ⟨_, rfl⟩
    | ok kbs =>
      cases kbs with
      | nil => exact ⟨_, rfl⟩
      | cons k ks => exact ⟨_, rfl⟩

theorem c1_no_raise_for_good_sink_witness :
    GoodEm (some fun _ => none) ∧
    (∃ s, (search_knowledge (fun d : Int => d) (Valves.mk "kb" 5 0)
        (fun _ => Except.ok (none : Option Unit))
        (fun _ _ _ _ => Except.ok (none : Option (QueryResult Int)))
        "q" none (some fun _ => none) none).result = Except.ok s) ∧
    (∃ s, list_available_knowledge_bases (fun _ => Except.ok []) none none = Except.ok s) := by
  have hg : GoodEm (some fun _ => none) := fun f h _ => by cases h; rfl
  refine ⟨hg, ?_, ?_⟩
  · exact (c1_no_raise_for_good_sink (fun d : Int => d) (Valves.mk "kb" 5 0)
      (fun _ => Except.ok (none : Option Unit))
      (fun _ _ _ _ => Except.ok (none : Option (QueryResult Int)))
      "q" none (some fun _ => none) none hg).1
  · exact (c1_no_raise_for_good_sink (fun d : Int => d) (Valves.mk "kb" 5 0)
      (fun _ => Except.ok (none : Option Unit))
      (fun _ _ _ _ => Except.ok (none : Option (QueryResult Int)))
      "q" none (some fun _ => none) none hg).2 (fun _ => Except.ok []) none none

/-- Claim C1, counterexample to the claim as stated: a progress sink
that raises on its first call makes `search_knowledge` raise outward,
because the initial "Searching knowledge bases..." emission happens
before the `try` block. -/
theorem c1_sink_escape_counterexample :
    (search_knowledge (fun d : Int => d) (Valves.mk "" 5 0)
      (fun _ => Except.ok (none : Option Unit))
      (fun _ _ _ _ => Except.ok (none : Option (QueryResult Int)))
      "q" (some "kb") (some fun _ => some "sink failure") none).result
      = Except.error "sink failure" := rfl

/-- Claim C3, corrected.  When the selector is absent or empty and the
configured default is empty, `search_knowledge` returns the fixed
no-knowledge-bases message, and the outcome is the same for every
retrieval and user-resolution oracle (neither is consulted).  But the
claim's "no progress-sink invocation" part is false: the sink, when
present, still receives the initial "searching" status notification
(see the counterexample); that notification is the only sink call. -/
theorem c3_nokb_amended {D U : Type} (round3 : D → D) (v : Valves D)
    (g : String → Except String (Option U))
    (qc : List String → String → Int → Option U → Except String (Option (QueryResult D)))
    (q : String) (sel : Option String) (em : Emitter) (user : Option (Option String))
    (hsel : sel = none ∨ sel = some "") (hdef : v.default_knowledge_bases = "")
    (hg : GoodEm em) :
    search_knowledge round3 v g qc q sel em user =
      ⟨Except.ok noKbMsg, emitsOf em [searchingEvent]⟩ := by
  apply search_run_nokb
  · rcases hsel with rfl | rfl <;> simp [resolveKbIds, hdef]
  · exact hg

theorem c3_nokb_amended_witness :
    ((none : Option String) = none ∨ (none : Option String) = some "") ∧
    (Valves.mk "" 5 (0 : Int)).default_knowledge_bases = "" ∧
    search_knowledge (fun d : Int => d) (Valves.mk "" 5 0)
        (fun _ => Except.ok (none : Option Unit))
        (fun _ _ _ _ => Except.ok (none : Option (QueryResult Int)))
        "q" none (some fun _ => none) none =
      ⟨Except.ok noKbMsg, emitsOf (some fun _ => none) [searchingEvent]⟩ := by
  have hg : GoodEm (some fun _ => none) := fun f h _ => by cases h; rfl
  exact ⟨Or.inl rfl, rfl,
    c3_nokb_amended (fun d : Int => d) (Valves.mk "" 5 0)
      (fun _ => Except.ok (none : Option Unit))
      (fun _ _ _ _ => Except.ok (none : Option (QueryResult Int)))
      "q" none (some fun _ => none) none (Or.inl rfl) rfl hg⟩

/-- Claim C3, counterexample to the claim as stated: with a sink
present and no knowledge base resolvable, the delivered event list is
not empty — the sink was invoked (with the initial searching status). -/
theorem c3_sink_invoked_counterexample :
    (search_knowledge (fun d : Int => d) (Valves.mk "" 5 0)
      (fun _ => Except.ok (none : Option Unit))
      (fun _ _ _ _ => Except.ok (none : Option (QueryResult Int)))
      "q" none (some fun _ => none) none).events ≠ [] :=
  fun h => List.cons_ne_nil searchingEvent [] h

/-- Claim C4, confirmed (for a well-behaved sink).  If the retrieval
call raises with message `m`, `search_knowledge` returns the string
"Error searching knowledge bases: " followed by `m`, and with a sink
present the delivered events end with a failure status notification
carrying that same text with the done flag set. -/
theorem c4_retrieval_error {D U : Type} (round3 : D → D) (v : Valves D)
    (g : String → Except String (Option U))
    (qc : List String → String → Int → Option U → Except String (Option (QueryResult D)))
    (q : String) (sel : Option String) (em : Emitter) (user : Option (Option String))
    (kbs : List String) (uo : Option U) (m : String)
    (h1 : resolveKbIds sel v.default_knowledge_bases = some kbs)
    (h2 : resolveUser g user = Except.ok uo)
    (hq : qc kbs q v.top_k uo = Except.error m)
    (hg : GoodEm em) :
    (search_knowledge round3 v g qc q sel em user).result =
      Except.ok ("Error searching knowledge bases: " ++ m) ∧
    (search_knowledge round3 v g qc q sel em user).events =
      emitsOf em [searchingEvent,
        Event.status ("Error searching knowledge bases: " ++ m) true] := by
  rw [search_run_qcerr round3 v g qc q sel em user kbs uo m h1 h2 hq hg]
  exact ⟨rfl, rfl⟩

theorem c4_retrieval_error_witness :
    GoodEm (some fun _ => none) ∧
    (search_knowledge (fun d : Int => d) (Valves.mk "kb" 5 0)
        (fun _ => Except.ok (none : Option Unit))
        (fun _ _ _ _ => Except.error "connection refused")
        "q" none (some fun _ => none) none).result =
      Except.ok ("Error searching knowledge bases: " ++ "connection refused") ∧
    (search_knowledge (fun d : Int => d) (Valves.mk "kb" 5 0)
        (fun _ => Except.ok (none : Option Unit))
        (fun _ _ _ _ => Except.error "connection refused")
        "q" none (some fun _ => none) none).events =
      emitsOf (some fun _ => none) [searchingEvent,
        Event.status ("Error searching knowledge bases: " ++ "connection refused") true] := by
  have hg : GoodEm (some fun _ => none) := fun f h _ => by cases h; rfl
  have h := c4_retrieval_error (fun d : Int => d) (Valves.mk "kb" 5 0)
    (fun _ => Except.ok (none : Option Unit))
    (fun _ _ _ _ => Except.error "connection refused")
    "q" none (some fun _ => none) none ["kb"] none "connection refused" rfl rfl rfl hg
  exact ⟨hg, h.1, h.2⟩

/-- Claim C5, confirmed.  The selector "a, b ,c" resolves to exactly
the list a, b, c; in general a non-empty selector resolves to the
comma-split, whitespace-trimmed fields in order, and the resolved list
is never empty. -/
theorem c5_selector_resolution :
    (∀ d : String, resolveKbIds (some "a, b ,c") d = some ["a", "b", "c"]) ∧
    (∀ s : String, s ≠ "" → ∀ d : String,
      resolveKbIds (some s) d = some (resolveSelector s) ∧ resolveSelector s ≠ []) := by
  constructor
  · intro d
    rfl
  · intro s hs d
    refine ⟨?_, resolveSelector_ne_nil s⟩
    unfold resolveKbIds
    dsimp only
    rw [if_neg hs]

theorem c5_selector_resolution_witness :
    resolveKbIds (some "a, b ,c") "" = some ["a", "b", "c"] ∧
    ("x,y" ≠ "" ∧ resolveKbIds (some "x,y") "zz" = some (resolveSelector "x,y") ∧
      resolveSelector "x,y" ≠ []) :=
  ⟨c5_selector_resolution.1 "",
    by decide,
    (c5_selector_resolution.2 "x,y" (by decide) "zz").1,
    (c5_selector_resolution.2 "x,y" (by decide) "zz").2⟩

/-- Claim C9, confirmed.  Two configurations differing only in the
relevance threshold produce identical results and identical events for
the same inputs and the same oracles: the threshold is never read. -/
theorem c9_threshold_unused {D U : Type} (round3 : D → D) (v1 v2 : Valves D)
    (g : String → Except String (Option U))
    (qc : List String → String → Int → Option U → Except String (Option (QueryResult D)))
    (q : String) (sel : Option String) (em : Emitter) (user : Option (Option String))
    (hd : v1.default_knowledge_bases = v2.default_knowledge_bases)
    (hk : v1.top_k = v2.top_k) :
    search_knowledge round3 v1 g qc q sel em user =
      search_knowledge round3 v2 g qc q sel em user := by
  obtain ⟨d1, k1, t1⟩ := v1
  obtain ⟨d2, k2, t2⟩ := v2
  dsimp only at hd hk
  subst hd
  subst hk
  rfl

theorem c9_threshold_unused_witness :
    (Valves.mk "kb" 5 (0 : Int)).default_knowledge_bases =
      (Valves.mk "kb" 5 (7 : Int)).default_knowledge_bases ∧
    (Valves.mk "kb" 5 (0 : Int)).top_k = (Valves.mk "kb" 5 (7 : Int)).top_k ∧
    search_knowledge (fun d : Int => d) (Valves.mk "kb" 5 0)
        (fun _ => Except.ok (none : Option Unit))
        (fun _ _ _ _ => Except.ok (none : Option (QueryResult Int)))
        "q" none (some fun _ => none) none =
      search_knowledge (fun d : Int => d) (Valves.mk "kb" 5 7)
        (fun _ => Except.ok (none : Option Unit))
        (fun _ _ _ _ => Except.ok (none : Option (QueryResult Int)))
        "q" none (some fun _ => none) none :=
  ⟨rfl, rfl,
    c9_threshold_unused (fun d : Int => d) (Valves.mk "kb" 5 0) (Valves.mk "kb" 5 7)
      (fun _ => Except.ok (none : Option Unit))
      (fun _ _ _ _ => Except.ok (none : Option (QueryResult Int)))
      "q" none (some fun _ => none) none rfl rfl⟩

/-- Claim C2, confirmed (for a well-behaved sink).  When the first
query's document, metadata and distance lists all have length N with
N positive, the returned string wraps the N tagged blocks — block i
carrying citation id i+1 and the document text verbatim, joined by
blank lines after the strip — and with a sink present the delivered
events are the initial status, then exactly N citation events in
document order, then the final complete status reporting N. -/
theorem c2_blocks_and_citations {D U : Type} (round3 : D → D) (v : Valves D)
    (g : String → Except String (Option U))
    (qc : List String → String → Int → Option U → Except String (Option (QueryResult D)))
    (q : String) (sel : Option String) (em : Emitter) (user : Option (Option String))
    (kbs : List String) (uo : Option U) (r : QueryResult D)
    (docs : List String) (mds : List Metadata) (dsts : List D)
    (restD : List (List String)) (restM : List (List Metadata)) (restS : List (List D))
    (h1 : resolveKbIds sel v.default_knowledge_bases = some kbs)
    (h2 : resolveUser g user = Except.ok uo)
    (h3 : qc kbs q v.top_k uo = Except.ok (some r))
    (h4 : r.documents = some (docs :: restD))
    (h5 : r.metadatas = some (mds :: restM))
    (h6 : r.distances = some (dsts :: restS))
    (hne : docs ≠ [])
    (hm : mds.length = docs.length) (hs : dsts.length = docs.length)
    (hg : GoodEm em) :
    search_knowledge round3 v g qc q sel em user =
      ⟨Except.ok (finalTemplate (ctxBlocks (zip3 docs mds dsts) 0)),
        emitsOf em (searchingEvent ::
          (citeEvents round3 (zip3 docs mds dsts) 0 ++
            [Event.status (foundMsg docs.length) true]))⟩ ∧
    pyStrip (ctxBlocks (zip3 docs mds dsts) 0) =
      joinSep "\n\n" (coreBlocks (zip3 docs mds dsts) 0) ∧
    (coreBlocks (zip3 docs mds dsts) 0).length = docs.length ∧
    (citeEvents round3 (zip3 docs mds dsts) 0).length = docs.length ∧
    (∀ (i : Nat) (doc : String) (md : Metadata) (dist : D),
      docs[i]? = some doc → mds[i]? = some md → dsts[i]? = some dist →
      (coreBlocks (zip3 docs mds dsts) 0)[i]? =
          some (taggedBlock (i + 1) (sourceNameOf md (i + 1)) doc) ∧
      (citeEvents round3 (zip3 docs mds dsts) 0)[i]? =
          some (citEvent round3 (i + 1) doc md dist)) := by
  obtain ⟨d0, dtl, rfl⟩ := List.exists_cons_of_ne_nil hne
  have hzne : zip3 (d0 :: dtl) mds dsts ≠ [] := by
    rcases mds with _ | ⟨m0, mtl⟩
    · simp at hm
    · rcases dsts with _ | ⟨s0, stl⟩
      · simp at hs
      · exact List.cons_ne_nil _ _
  refine ⟨search_run_ok round3 v g qc q sel em user kbs uo r d0 dtl restD mds dsts
      h1 h2 h3 h4 (by rw [h5]; rfl) (by rw [h6]; rfl) hg,
    pyStrip_ctxBlocks _ 0 hzne, ?_, ?_, ?_⟩
  · rw [coreBlocks_length, zip3_length, hm, hs]
    simp [Nat.min_self]
  · rw [citeEvents_length, zip3_length, hm, hs]
    simp [Nat.min_self]
  · intro i doc md dist hd hmd hds
    have hz := zip3_getElem? (d0 :: dtl) mds dsts i doc md dist hd hmd hds
    constructor
    · simpa using coreBlocks_getElem? (zip3 (d0 :: dtl) mds dsts) 0 i doc md dist hz
    · simpa using citeEvents_getElem? round3 (zip3 (d0 :: dtl) mds dsts) 0 i doc md dist hz

theorem c2_blocks_and_citations_witness :
    GoodEm (some fun _ => none) ∧
    search_knowledge (fun d : Int => d) (Valves.mk "" 5 0)
        (fun _ => Except.ok (none : Option Unit))
        (fun _ _ _ _ => Except.ok (some (QueryResult.mk
          (some [["alpha", "beta"]])
          (some [[Metadata.mk (some "SrcA") (some "f1"), Metadata.mk none none]])
          (some [[(3 : Int), 4]]))))
        "q" (some "kb1") (some fun _ => none) none =
      ⟨Except.ok (finalTemplate (ctxBlocks
          (zip3 ["alpha", "beta"]
            [Metadata.mk (some "SrcA") (some "f1"), Metadata.mk none none]
            [(3 : Int), 4]) 0)),
        emitsOf (some fun _ => none) (searchingEvent ::
          (citeEvents (fun d : Int => d)
            (zip3 ["alpha", "beta"]
              [Metadata.mk (some "SrcA") (some "f1"), Metadata.mk none none]
              [(3 : Int), 4]) 0 ++
            [Event.status (foundMsg (["alpha", "beta"] : List String).length) true]))⟩ ∧
    (coreBlocks
        (zip3 ["alpha", "beta"]
          [Metadata.mk (some "SrcA") (some "f1"), Metadata.mk none none]
          [(3 : Int), 4]) 0)[0]? =
      some (taggedBlock 1 (sourceNameOf (Metadata.mk (some "SrcA") (some "f1")) 1) "alpha") := by
  have hg : GoodEm (some fun _ => none) := fun f h _ => by cases h; rfl
  have h := c2_blocks_and_citations (fun d : Int => d) (Valves.mk "" 5 0)
    (fun _ => Except.ok (none : Option Unit))
    (fun _ _ _ _ => Except.ok (some (QueryResult.mk
      (some [["alpha", "beta"]])
      (some [[Metadata.mk (some "SrcA") (some "f1"), Metadata.mk none none]])
      (some [[(3 : Int), 4]]))))
    "q" (some "kb1") (some fun _ => none) none ["kb1"] none _
    ["alpha", "beta"] [Metadata.mk (some "SrcA") (some "f1"), Metadata.mk none none]
    [(3 : Int), 4] [] [] []
    rfl rfl rfl rfl rfl rfl (List.cons_ne_nil _ _) rfl rfl hg
  exact ⟨hg, h.1,
    (h.2.2.2.2 0 "alpha" (Metadata.mk (some "SrcA") (some "f1")) 3 rfl rfl rfl).1⟩

/-- Claim C6, confirmed (for a well-behaved sink).  When the retrieval
result is empty or carries no documents for the query, the handler
returns the plain no-information message quoting the query literally,
and with a sink present exactly one "No relevant knowledge found"
status event follows the initial one; the message is not the error
string. -/
theorem c6_empty_result {D U : Type} (round3 : D → D) (v : Valves D)
    (g : String → Except String (Option U))
    (qc : List String → String → Int → Option U → Except String (Option (QueryResult D)))
    (q : String) (sel : Option String) (em : Emitter) (user : Option (Option String))
    (kbs : List String) (uo : Option U) (resOpt : Option (QueryResult D))
    (h1 : resolveKbIds sel v.default_knowledge_bases = some kbs)
    (h2 : resolveUser g user = Except.ok uo)
    (h3 : qc kbs q v.top_k uo = Except.ok resOpt)
    (hE : emptyResult resOpt = true)
    (hg : GoodEm em) :
    (search_knowledge round3 v g qc q sel em user).result =
      Except.ok ("No relevant information found in the knowledge bases for query: " ++
        sq ++ q ++ sq) ∧
    (search_knowledge round3 v g qc q sel em user).events =
      emitsOf em [searchingEvent, Event.status "No relevant knowledge found" true] := by
  rw [search_run_empty round3 v g qc q sel em user kbs uo resOpt h1 h2 h3 hE hg]
  exact ⟨rfl, rfl⟩

theorem c6_empty_result_witness :
    GoodEm (some fun _ => none) ∧
    emptyResult (none : Option (QueryResult Int)) = true ∧
    (search_knowledge (fun d : Int => d) (Valves.mk "kb" 5 0)
        (fun _ => Except.ok (none : Option Unit))
        (fun _ _ _ _ => Except.ok (none : Option (QueryResult Int)))
        "weather policy" none (some fun _ => none) none).result =
      Except.ok ("No relevant information found in the knowledge bases for query: " ++
        sq ++ "weather policy" ++ sq) ∧
    (search_knowledge (fun d : Int => d) (Valves.mk "kb" 5 0)
        (fun _ => Except.ok (none : Option Unit))
        (fun _ _ _ _ => Except.ok (none : Option (QueryResult Int)))
        "weather policy" none (some fun _ => none) none).events =
      emitsOf (some fun _ => none)
        [searchingEvent, Event.status "No relevant knowledge found" true] := by
  have hg : GoodEm (some fun _ => none) := fun f h _ => by cases h; rfl
  have h := c6_empty_result (fun d : Int => d) (Valves.mk "kb" 5 0)
    (fun _ => Except.ok (none : Option Unit))
    (fun _ _ _ _ => Except.ok (none : Option (QueryResult Int)))
    "weather policy" none (some fun _ => none) none ["kb"] none none
    rfl rfl rfl rfl hg
  exact ⟨hg, rfl, h.1, h.2⟩

/-- Claim C7, confirmed (for a present, well-behaved sink).  A rendered
document whose metadata lacks a source key gets the synthesized name
"Source i+1": that name appears both in the emitted citation event at
position i+1 of the event stream (in its metadata record and its source
descriptor) and in the corresponding tagged block of the returned
string. -/
theorem c7_synthesized_source {D U : Type} (round3 : D → D) (v : Valves D)
    (g : String → Except String (Option U))
    (qc : List String → String → Int → Option U → Except String (Option (QueryResult D)))
    (q : String) (sel : Option String) (f : Nat → Option String)
    (user : Option (Option String))
    (kbs : List String) (uo : Option U) (r : QueryResult D)
    (d0 : String) (dtl : List String) (restD : List (List String))
    (mds : List Metadata) (dsts : List D)
    (i : Nat) (doc : String) (md : Metadata) (dist : D)
    (h1 : resolveKbIds sel v.default_knowledge_bases = some kbs)
    (h2 : resolveUser g user = Except.ok uo)
    (h3 : qc kbs q v.top_k uo = Except.ok (some r))
    (h4 : r.documents = some ((d0 :: dtl) :: restD))
    (h5 : get0 r.metadatas = Except.ok mds)
    (h6 : get0 r.distances = Except.ok dsts)
    (hz : (zip3 (d0 :: dtl) mds dsts)[i]? = some (doc, md, dist))
    (hsrc : md.source = none)
    (hg : GoodEm (some f)) :
    (search_knowledge round3 v g qc q sel (some f) user).events[i + 1]? =
      some (Event.citation [doc]
        [CitationMeta.mk ("Source " ++ toString (i + 1)) (md.file_id.getD "") (round3 dist)]
        (SourceDesc.mk ("Source " ++ toString (i + 1)) ("#file-" ++ md.file_id.getD ""))) ∧
    (coreBlocks (zip3 (d0 :: dtl) mds dsts) 0)[i]? =
      some (taggedBlock (i + 1) ("Source " ++ toString (i + 1)) doc) ∧
    (search_knowledge round3 v g qc q sel (some f) user).result =
      Except.ok (finalTemplate (ctxBlocks (zip3 (d0 :: dtl) mds dsts) 0)) ∧
    pyStrip (ctxBlocks (zip3 (d0 :: dtl) mds dsts) 0) =
      joinSep "\n\n" (coreBlocks (zip3 (d0 :: dtl) mds dsts) 0) := by
  have hrun := search_run_ok round3 v g qc q sel (some f) user kbs uo r d0 dtl restD mds dsts
    h1 h2 h3 h4 h5 h6 hg
  have hi : i < (zip3 (d0 :: dtl) mds dsts).length := (List.getElem?_eq_some.mp hz).1
  have hzne : zip3 (d0 :: dtl) mds dsts ≠ [] := by
    intro h0
    rw [h0] at hz
    simp at hz
  refine ⟨?_, ?_, ?_, pyStrip_ctxBlocks _ 0 hzne⟩
  · rw [hrun]
    dsimp only [emitsOf]
    rw [List.getElem?_cons_succ,
      List.getElem?_append_left (by rw [citeEvents_length]; exact hi),
      citeEvents_getElem? round3 (zip3 (d0 :: dtl) mds dsts) 0 i doc md dist hz]
    simp [citEvent, sourceNameOf, hsrc]
  · rw [coreBlocks_getElem? (zip3 (d0 :: dtl) mds dsts) 0 i doc md dist hz]
    simp [sourceNameOf, hsrc]
  · rw [hrun]

theorem c7_synthesized_source_witness :
    (Metadata.mk none none).source = none ∧
    (search_knowledge (fun d : Int => d) (Valves.mk "" 5 0)
        (fun _ => Except.ok (none : Option Unit))
        (fun _ _ _ _ => Except.ok (some (QueryResult.mk
          (some [["alpha", "beta"]])
          (some [[Metadata.mk (some "SrcA") (some "f1"), Metadata.mk none none]])
          (some [[(3 : Int), 4]]))))
        "q" (some "kb1") (some fun _ => none) none).events[1 + 1]? =
      some (Event.citation ["beta"]
        [CitationMeta.mk ("Source " ++ toString (1 + 1))
          ((Metadata.mk none (none : Option String)).file_id.getD "") ((4 : Int))]
        (SourceDesc.mk ("Source " ++ toString (1 + 1))
          ("#file-" ++ (Metadata.mk none (none : Option String)).file_id.getD ""))) ∧
    (coreBlocks
        (zip3 ["alpha", "beta"]
          [Metadata.mk (some "SrcA") (some "f1"), Metadata.mk none none]
          [(3 : Int), 4]) 0)[1]? =
      some (taggedBlock (1 + 1) ("Source " ++ toString (1 + 1)) "beta") := by
  have hg : GoodEm (some fun _ => none) := fun f h _ => by cases h; rfl
  have h := c7_synthesized_source (fun d : Int => d) (Valves.mk "" 5 0)
    (fun _ => Except.ok (none : Option Unit))
    (fun _ _ _ _ => Except.ok (some (QueryResult.mk
      (some [["alpha", "beta"]])
      (some [[Metadata.mk (some "SrcA") (some "f1"), Metadata.mk none none]])
      (some [[(3 : Int), 4]]))))
    "q" (some "kb1") (fun _ => none) none ["kb1"] none _
    "alpha" ["beta"] [] [Metadata.mk (some "SrcA") (some "f1"), Metadata.mk none none]
    [(3 : Int), 4] 1 "beta" (Metadata.mk none none) 4
    rfl rfl rfl rfl rfl rfl rfl rfl hg
  exact ⟨rfl, h.1, h.2.1⟩

/-- Claim C8, confirmed.  An empty registry result yields exactly the
fixed sentence; a non-empty one yields the header plus one rendered
line per knowledge base in registry order; a missing or empty
description renders as the "No description" placeholder; a knowledge
base without a file-id collection reports zero files. -/
theorem c8_listing (registry : Option String → Except String (List KnowledgeBase))
    (em : Emitter) (user : Option (Option String)) (kbs : List KnowledgeBase)
    (hreg : registry (hasUserId user) = Except.ok kbs) :
    (kbs = [] →
      list_available_knowledge_bases registry em user =
        Except.ok "No knowledge bases are currently available.") ∧
    (kbs ≠ [] →
      list_available_knowledge_bases registry em user =
        Except.ok (joinSep "\n" ("Available knowledge bases:\n" :: kbs.map renderKb))) ∧
    (∀ kb : KnowledgeBase, kb.description = none ∨ kb.description = some "" →
      renderKb kb = "- **" ++ kb.name ++ "** (ID: `" ++ kb.id ++ "`)\n  Description: " ++
        "No description" ++ "\n  Files: " ++ toString (fileCount kb)) ∧
    (∀ kb : KnowledgeBase, kb.data = none ∨ kb.data = some (KbData.mk none) →
      fileCount kb = 0) := by
  refine ⟨?_, ?_, ?_, ?_⟩
  · intro h
    subst h
    unfold list_available_knowledge_bases
    rw [hreg]
    rfl
  · intro h
    unfold list_available_knowledge_bases
    rw [hreg]
    cases kbs with
    | nil => exact absurd rfl h
    | cons k ks => rfl
  · intro kb hd
    rcases hd with h | h <;> simp [renderKb, pyOrDesc, h]
  · intro kb hd
    rcases hd with h | h <;> simp [fileCount, h]

theorem c8_listing_witness :
    list_available_knowledge_bases (fun _ => Except.ok []) none none =
      Except.ok "No knowledge bases are currently available." ∧
    list_available_knowledge_bases
        (fun _ => Except.ok [KnowledgeBase.mk "kb1" "KB One" none none]) none none =
      Except.ok (joinSep "\n" ("Available knowledge bases:\n" ::
        [KnowledgeBase.mk "kb1" "KB One" none none].map renderKb)) ∧
    renderKb (KnowledgeBase.mk "kb1" "KB One" none none) =
      "- **" ++ "KB One" ++ "** (ID: `" ++ "kb1" ++ "`)\n  Description: " ++
        "No description" ++ "\n  Files: " ++
        toString (fileCount (KnowledgeBase.mk "kb1" "KB One" none none)) ∧
    fileCount (KnowledgeBase.mk "kb1" "KB One" none none) = 0 :=
  ⟨(c8_listing (fun _ => Except.ok []) none none [] rfl).1 rfl,
    (c8_listing (fun _ => Except.ok [KnowledgeBase.mk "kb1" "KB One" none none]) none none
      [KnowledgeBase.mk "kb1" "KB One" none none] rfl).2.1 (List.cons_ne_nil _ _),
    (c8_listing (fun _ => Except.ok []) none none [] rfl).2.2.1
      (KnowledgeBase.mk "kb1" "KB One" none none) (Or.inl rfl),
    (c8_listing (fun _ => Except.ok []) none none [] rfl).2.2.2
      (KnowledgeBase.mk "kb1" "KB One" none none) (Or.inl rfl)⟩

/-- Claim C10, confirmed (for a well-behaved sink).  When the three
first-query lists have unequal lengths — in particular when a missing
metadatas or distances key yields the empty list — blocks and citation
events are produced only for the first min of the three lengths, while
the final complete status still reports the full document-list
length. -/
theorem c10_truncation {D U : Type} (round3 : D → D) (v : Valves D)
    (g : String → Except String (Option U))
    (qc : List String → String → Int → Option U → Except String (Option (QueryResult D)))
    (q : String) (sel : Option String) (em : Emitter) (user : Option (Option String))
    (kbs : List String) (uo : Option U) (r : QueryResult D)
    (d0 : String) (dtl : List String) (restD : List (List String))
    (mds : List Metadata) (dsts : List D)
    (h1 : resolveKbIds sel v.default_knowledge_bases = some kbs)
    (h2 : resolveUser g user = Except.ok uo)
    (h3 : qc kbs q v.top_k uo = Except.ok (some r))
    (h4 : r.documents = some ((d0 :: dtl) :: restD))
    (h5 : get0 r.metadatas = Except.ok mds)
    (h6 : get0 r.distances = Except.ok dsts)
    (hg : GoodEm em) :
    search_knowledge round3 v g qc q sel em user =
      ⟨Except.ok (finalTemplate (ctxBlocks (zip3 (d0 :: dtl) mds dsts) 0)),
        emitsOf em (searchingEvent ::
          (citeEvents round3 (zip3 (d0 :: dtl) mds dsts) 0 ++
            [Event.status (foundMsg (d0 :: dtl).length) true]))⟩ ∧
    (citeEvents round3 (zip3 (d0 :: dtl) mds dsts) 0).length =
      Nat.min (d0 :: dtl).length (Nat.min mds.length dsts.length) ∧
    (coreBlocks (zip3 (d0 :: dtl) mds dsts) 0).length =
      Nat.min (d0 :: dtl).length (Nat.min mds.length dsts.length) := by
  refine ⟨search_run_ok round3 v g qc q sel em user kbs uo r d0 dtl restD mds dsts
      h1 h2 h3 h4 h5 h6 hg, ?_, ?_⟩
  · rw [citeEvents_length, zip3_length]
  · rw [coreBlocks_length, zip3_length]

theorem c10_truncation_witness :
    GoodEm (some fun _ => none) ∧
    get0 ((QueryResult.mk (some [["a", "b", "c"]]) none none : QueryResult Int).metadatas) =
      Except.ok [] ∧
    search_knowledge (fun d : Int => d) (Valves.mk "kb" 5 0)
        (fun _ => Except.ok (none : Option Unit))
        (fun _ _ _ _ => Except.ok (some (QueryResult.mk (some [["a", "b", "c"]]) none none)))
        "q" none (some fun _ => none) none =
      ⟨Except.ok (finalTemplate (ctxBlocks
          (zip3 ["a", "b", "c"] ([] : List Metadata) ([] : List Int)) 0)),
        emitsOf (some fun _ => none) (searchingEvent ::
          (citeEvents (fun d : Int => d)
            (zip3 ["a", "b", "c"] ([] : List Metadata) ([] : List Int)) 0 ++
            [Event.status (foundMsg (["a", "b", "c"] : List String).length) true]))⟩ ∧
    (citeEvents (fun d : Int => d)
        (zip3 ["a", "b", "c"] ([] : List Metadata) ([] : List Int)) 0).length =
      Nat.min (["a", "b", "c"] : List String).length
        (Nat.min ([] : List Metadata).length ([] : List Int).length) := by
  have hg : GoodEm (some fun _ => none) := fun f h _ => by cases h; rfl
  have h := c10_truncation (fun d : Int => d) (Valves.mk "kb" 5 0)
    (fun _ => Except.ok (none : Option Unit))
    (fun _ _ _ _ => Except.ok (some (QueryResult.mk (some [["a", "b", "c"]]) none none)))
    "q" none (some fun _ => none) none ["kb"] none _
    "a" ["b", "c"] [] [] []
    rfl rfl rfl rfl rfl rfl hg
  exact ⟨hg, rfl, h.1, h.2.1⟩

end KnowledgeTool
